import Mathlib

/-!
Verification of the pickleball ranking/caching core.

The data model and operations below are shallow embeddings of the
repository's PostgreSQL statistics queries (getPlayerStatsLifetime,
getPlayerStatsBySeason, getPlayerStatsBySpecificDate, getPlayerForm,
getPlayerFormBySeason, getPlayerFormBySpecificDate) and of the Express
ranking router (createRankingRouter).  SQL DATE values are modelled as
strings in YYYY-MM-DD form compared with the lexicographic string order,
COUNT aggregates as countP over the joined match list, and ROUND(x, 1)
on nonnegative numerics as half-up rounding to tenths.
-/

namespace Pickleball

/-- A row of the players table: id and unique name. -/
structure Player where
  id : Nat
  name : String
deriving DecidableEq, Repr

/-- A row of the matches table: four player slots (slots 2 and 4 nullable
for solo matches), two scores, a winning-team indicator, and a creation
timestamp modelled as a Nat recording order. -/
structure MatchRow where
  id : Nat
  season_id : Nat
  play_date : String
  match_type : String
  player1_id : Nat
  player2_id : Option Nat
  player3_id : Nat
  player4_id : Option Nat
  team1_score : Int
  team2_score : Int
  winning_team : Nat
  created_at : Nat
deriving DecidableEq, Repr

/-- SQL condition m.player1_id = p.id OR m.player2_id = p.id
(a NULL slot compares false). -/
def onTeam1 (m : MatchRow) (pid : Nat) : Bool :=
  m.player1_id == pid || m.player2_id == some pid

/-- SQL condition m.player3_id = p.id OR m.player4_id = p.id. -/
def onTeam2 (m : MatchRow) (pid : Nat) : Bool :=
  m.player3_id == pid || m.player4_id == some pid

/-- The LEFT JOIN condition of the stats queries: the player occupies one
of the four slots of the match. -/
def playsIn (m : MatchRow) (pid : Nat) : Bool :=
  onTeam1 m pid || onTeam2 m pid

/-- The wins CASE of the stats queries:
(winning_team = 1 AND slot 1 or 2) OR (winning_team = 2 AND slot 3 or 4). -/
def isWin (m : MatchRow) (pid : Nat) : Bool :=
  (m.winning_team == 1 && onTeam1 m pid) || (m.winning_team == 2 && onTeam2 m pid)

/-- The losses CASE of the stats queries:
(winning_team = 2 AND slot 1 or 2) OR (winning_team = 1 AND slot 3 or 4). -/
def isLoss (m : MatchRow) (pid : Nat) : Bool :=
  (m.winning_team == 2 && onTeam1 m pid) || (m.winning_team == 1 && onTeam2 m pid)

/-- The result CASE of the form queries: the win condition yields the
string win, anything else the string loss. -/
def formResult (m : MatchRow) (pid : Nat) : String :=
  if isWin m pid then "win" else "loss"

/-- ROUND((wins * 100.0) / (wins + losses), 1) expressed in tenths of a
percent: half-up rounding of 1000*w/(w+l), i.e. floor((2000*w + d)/(2*d))
with d = w + l; the CASE yields 0 when w + l = 0. -/
def winPctTenths (w l : Nat) : Nat :=
  if 0 < w + l then (2000 * w + (w + l)) / (2 * (w + l)) else 0

/-- One output row of the stats queries. -/
structure PlayerStat where
  id : Nat
  name : String
  wins : Nat
  losses : Nat
  total_matches : Nat
  points : Nat
  win_percentage : ℚ
  money_lost : Nat
deriving DecidableEq, Repr

/-- The grouped aggregation of the player_stats CTE together with the
outer SELECT of the stats queries, for one player over the matches in
scope. -/
def statsFor (ms : List MatchRow) (p : Player) : PlayerStat :=
  let pm := ms.filter (fun m => playsIn m p.id)
  let w := pm.countP (fun m => isWin m p.id)
  let l := pm.countP (fun m => isLoss m p.id)
  { id := p.id
    name := p.name
    wins := w
    losses := l
    total_matches := pm.length
    points := w * 4 + l * 1
    win_percentage := (winPctTenths w l : ℚ) / 10
    money_lost := l * 20000 }

/-- ORDER BY points DESC, win_percentage DESC, name ASC as a Boolean
comparison: a precedes-or-equals b. -/
def rankLE (a b : PlayerStat) : Bool :=
  decide (b.points < a.points) ||
    (a.points == b.points &&
      (decide (b.win_percentage < a.win_percentage) ||
        (decide (a.win_percentage = b.win_percentage) && decide (a.name ≤ b.name))))

/-- getPlayerStatsLifetime: one row per roster player over all matches,
ordered by points DESC, win_percentage DESC, name ASC. -/
def getPlayerStatsLifetime (players : List Player) (ms : List MatchRow) : List PlayerStat :=
  (players.map (statsFor ms)).mergeSort rankLE

/-- getPlayerStatsBySeason: as lifetime, with the join restricted to
m.season_id = seasonId. -/
def getPlayerStatsBySeason (seasonId : Nat) (players : List Player) (ms : List MatchRow) :
    List PlayerStat :=
  (players.map (statsFor (ms.filter (fun m => m.season_id == seasonId)))).mergeSort rankLE

/-- getPlayerStatsBySpecificDate: as lifetime, with the join restricted
to DATE(m.play_date) = d. -/
def getPlayerStatsBySpecificDate (d : String) (players : List Player) (ms : List MatchRow) :
    List PlayerStat :=
  (players.map (statsFor (ms.filter (fun m => m.play_date == d)))).mergeSort rankLE

/-- ORDER BY m.play_date DESC, m.created_at DESC of the form queries as
a Boolean comparison. -/
def formLE (a b : MatchRow) : Bool :=
  decide (b.play_date < a.play_date) ||
    (a.play_date == b.play_date && decide (b.created_at ≤ a.created_at))

/-- One output row of the form queries. -/
structure FormEntry where
  result : String
  play_date : String
deriving DecidableEq, Repr

/-- The SELECT list of the form queries applied to one match row. -/
def toFormEntry (pid : Nat) (m : MatchRow) : FormEntry :=
  { result := formResult m pid, play_date := m.play_date }

/-- The FROM/WHERE/ORDER BY of getPlayerForm: the matches the player
appears in, sorted by play_date DESC, created_at DESC. -/
def formMatches (pid : Nat) (ms : List MatchRow) : List MatchRow :=
  (ms.filter (fun m => playsIn m pid)).mergeSort formLE

/-- The FROM/WHERE/ORDER BY of getPlayerFormBySeason. -/
def seasonFormMatches (pid seasonId : Nat) (ms : List MatchRow) : List MatchRow :=
  (ms.filter (fun m => playsIn m pid && m.season_id == seasonId)).mergeSort formLE

/-- The FROM/WHERE/ORDER BY of getPlayerFormBySpecificDate. -/
def dateFormMatches (pid : Nat) (d : String) (ms : List MatchRow) : List MatchRow :=
  (ms.filter (fun m => playsIn m pid && m.play_date == d)).mergeSort formLE

/-- getPlayerForm playerId limit: the limit most recent outcomes of the
player over all matches. -/
def getPlayerForm (pid limit : Nat) (ms : List MatchRow) : List FormEntry :=
  ((formMatches pid ms).take limit).map (toFormEntry pid)

/-- getPlayerFormBySeason playerId seasonId limit. -/
def getPlayerFormBySeason (pid seasonId limit : Nat) (ms : List MatchRow) : List FormEntry :=
  ((seasonFormMatches pid seasonId ms).take limit).map (toFormEntry pid)

/-- getPlayerFormBySpecificDate playerId date limit. -/
def getPlayerFormBySpecificDate (pid : Nat) (d : String) (limit : Nat) (ms : List MatchRow) :
    List FormEntry :=
  ((dateFormMatches pid d ms).take limit).map (toFormEntry pid)

/-- One element of the JSON array returned by the ranking routes: the
spread of a PlayerStat row plus the attached form list. -/
structure RankingEntry where
  id : Nat
  name : String
  wins : Nat
  losses : Nat
  total_matches : Nat
  points : Nat
  win_percentage : ℚ
  money_lost : Nat
  form : List FormEntry
deriving DecidableEq, Repr

/-- Projection of a RankingEntry back onto its PlayerStat fields. -/
def toStat (r : RankingEntry) : PlayerStat :=
  { id := r.id, name := r.name, wins := r.wins, losses := r.losses
    total_matches := r.total_matches, points := r.points
    win_percentage := r.win_percentage, money_lost := r.money_lost }

/-- The spread expression of the route handlers: all PlayerStat fields
carried over unchanged, with the form list added. -/
def withForm (s : PlayerStat) (f : List FormEntry) : RankingEntry :=
  { id := s.id, name := s.name, wins := s.wins, losses := s.losses
    total_matches := s.total_matches, points := s.points
    win_percentage := s.win_percentage, money_lost := s.money_lost
    form := f }

/-- Miss-path computation of GET /rankings/lifetime: lifetime stats with
each player's lifetime form (limit 5) attached. -/
def computeLifetimeRankings (players : List Player) (ms : List MatchRow) : List RankingEntry :=
  (getPlayerStatsLifetime players ms).map (fun s => withForm s (getPlayerForm s.id 5 ms))

/-- Miss-path computation of GET /rankings/season/:seasonId. -/
def computeSeasonRankings (seasonId : Nat) (players : List Player) (ms : List MatchRow) :
    List RankingEntry :=
  (getPlayerStatsBySeason seasonId players ms).map
    (fun s => withForm s (getPlayerFormBySeason s.id seasonId 5 ms))

/-- Miss-path computation of GET /rankings/date/:date. -/
def computeDateRankings (d : String) (players : List Player) (ms : List MatchRow) :
    List RankingEntry :=
  (getPlayerStatsBySpecificDate d players ms).map
    (fun s => withForm s (getPlayerFormBySpecificDate s.id d 5 ms))

/-- Cache key of the lifetime route. -/
def lifetimeKey : String := "rankings:lifetime"

/-- Cache key of the season route. -/
def seasonKey (seasonId : Nat) : String := "rankings:season:" ++ toString seasonId

/-- Cache key of the date route. -/
def dateKey (d : String) : String := "rankings:date:" ++ d

/-- TTL of the lifetime route: 10 * 60 * 1000 milliseconds. -/
def lifetimeTTL : Nat := 10 * 60 * 1000

/-- TTL of the season route: 3 * 60 * 1000 milliseconds. -/
def seasonTTL : Nat := 3 * 60 * 1000

/-- TTL of the date route: 15 * 60 * 1000 milliseconds. -/
def dateTTL : Nat := 15 * 60 * 1000

/-- Modelled from the spec: the rankingsCache object injected into
createRankingRouter is not under src/.  Section 4.4 of the spec gives it
get and set operations over string keys; section 7 allows set to fail
(memory pressure) without failing the request, so set is modelled as
returning the new cache state on success and none on failure, without
raising; a failed set leaves the state unchanged. -/
structure RankingsCache (σ : Type) where
  get : σ → String → Option (List RankingEntry)
  set : σ → String → List RankingEntry → Nat → Option σ

/-- Observable outcome of one route handler: response body, hit flag,
X-Cache-Key header, cache state afterwards, and the set invocation
(key, value, ttl) performed on a miss. -/
structure RouteResult (σ : Type) where
  body : List RankingEntry
  cacheHit : Bool
  xCacheKey : String
  state : σ
  setCall : Option (String × List RankingEntry × Nat)

/-- The GET /rankings/lifetime handler of createRankingRouter. -/
def lifetimeRoute {σ : Type} (c : RankingsCache σ) (st : σ)
    (players : List Player) (ms : List MatchRow) : RouteResult σ :=
  match c.get st lifetimeKey with
  | some r => { body := r, cacheHit := true, xCacheKey := lifetimeKey, state := st, setCall := none }
  | none =>
    let r := computeLifetimeRankings players ms
    { body := r, cacheHit := false, xCacheKey := lifetimeKey
      state := (c.set st lifetimeKey r lifetimeTTL).getD st
      setCall := some (lifetimeKey, r, lifetimeTTL) }

/-- The GET /rankings/season/:seasonId handler of createRankingRouter. -/
def seasonRoute {σ : Type} (c : RankingsCache σ) (st : σ) (seasonId : Nat)
    (players : List Player) (ms : List MatchRow) : RouteResult σ :=
  match c.get st (seasonKey seasonId) with
  | some r => { body := r, cacheHit := true, xCacheKey := seasonKey seasonId, state := st
                setCall := none }
  | none =>
    let r := computeSeasonRankings seasonId players ms
    { body := r, cacheHit := false, xCacheKey := seasonKey seasonId
      state := (c.set st (seasonKey seasonId) r seasonTTL).getD st
      setCall := some (seasonKey seasonId, r, seasonTTL) }

/-- The GET /rankings/date/:date handler of createRankingRouter. -/
def dateRoute {σ : Type} (c : RankingsCache σ) (st : σ) (d : String)
    (players : List Player) (ms : List MatchRow) : RouteResult σ :=
  match c.get st (dateKey d) with
  | some r => { body := r, cacheHit := true, xCacheKey := dateKey d, state := st, setCall := none }
  | none =>
    let r := computeDateRankings d players ms
    { body := r, cacheHit := false, xCacheKey := dateKey d
      state := (c.set st (dateKey d) r dateTTL).getD st
      setCall := some (dateKey d, r, dateTTL) }

end Pickleball

namespace Pickleball

theorem rankLE_total (a b : PlayerStat) : rankLE a b = true ∨ rankLE b a = true := by
  simp only [rankLE, Bool.or_eq_true, Bool.and_eq_true, decide_eq_true_eq, beq_iff_eq]
  rcases lt_trichotomy a.points b.points with h | h | h
  · exact Or.inr (Or.inl h)
  · rcases lt_trichotomy a.win_percentage b.win_percentage with h2 | h2 | h2
    · exact Or.inr (Or.inr ⟨h.symm, Or.inl h2⟩)
    · rcases le_total a.name b.name with h3 | h3
      · exact Or.inl (Or.inr ⟨h, Or.inr ⟨h2, h3⟩⟩)
      · exact Or.inr (Or.inr ⟨h.symm, Or.inr ⟨h2.symm, h3⟩⟩)
    · exact Or.inl (Or.inr ⟨h, Or.inl h2⟩)
  · exact Or.inl (Or.inl h)

theorem rankLE_trans (a b c : PlayerStat) (hab : rankLE a b = true)
    (hbc : rankLE b c = true) : rankLE a c = true := by
  simp only [rankLE, Bool.or_eq_true, Bool.and_eq_true, decide_eq_true_eq, beq_iff_eq] at *
  rcases hab with h1 | ⟨h1, h1'⟩
  · rcases hbc with h2 | ⟨h2, _⟩
    · exact Or.inl (h2.trans h1)
    · exact Or.inl (h2 ▸ h1)
  · rcases hbc with h2 | ⟨h2, h2'⟩
    · exact Or.inl (h1.symm ▸ h2)
    · refine Or.inr ⟨h1.trans h2, ?_⟩
      rcases h1' with h3 | ⟨h3, h3'⟩
      · rcases h2' with h4 | ⟨h4, _⟩
        · exact Or.inl (h4.trans h3)
        · exact Or.inl (h4 ▸ h3)
      · rcases h2' with h4 | ⟨h4, h4'⟩
        · exact Or.inl (h3.symm ▸ h4)
        · exact Or.inr ⟨h3.trans h4, h3'.trans h4'⟩

theorem formLE_total (a b : MatchRow) : formLE a b = true ∨ formLE b a = true := by
  simp only [formLE, Bool.or_eq_true, Bool.and_eq_true, decide_eq_true_eq, beq_iff_eq]
  rcases lt_trichotomy a.play_date b.play_date with h | h | h
  · exact Or.inr (Or.inl h)
  · rcases le_total a.created_at b.created_at with h2 | h2
    · exact Or.inr (Or.inr ⟨h.symm, h2⟩)
    · exact Or.inl (Or.inr ⟨h, h2⟩)
  · exact Or.inl (Or.inl h)

theorem formLE_trans (a b c : MatchRow) (hab : formLE a b = true)
    (hbc : formLE b c = true) : formLE a c = true := by
  simp only [formLE, Bool.or_eq_true, Bool.and_eq_true, decide_eq_true_eq, beq_iff_eq] at *
  rcases hab with h1 | ⟨h1, h1'⟩
  · rcases hbc with h2 | ⟨h2, _⟩
    · exact Or.inl (h2.trans h1)
    · exact Or.inl (h2 ▸ h1)
  · rcases hbc with h2 | ⟨h2, h2'⟩
    · exact Or.inl (h1.symm ▸ h2)
    · exact Or.inr ⟨h1.trans h2, h2'.trans h1'⟩

theorem sorted_mergeSort_rankLE (l : List PlayerStat) :
    List.Sorted (fun a b => rankLE a b = true) (l.mergeSort rankLE) :=
  List.sorted_mergeSort
    (fun a b c hab hbc => rankLE_trans a b c hab hbc)
    (fun a b => by simp only [Bool.or_eq_true]; exact rankLE_total a b) l

theorem sorted_mergeSort_formLE (l : List MatchRow) :
    List.Sorted (fun a b => formLE a b = true) (l.mergeSort formLE) :=
  List.sorted_mergeSort
    (fun a b c hab hbc => formLE_trans a b c hab hbc)
    (fun a b => by simp only [Bool.or_eq_true]; exact formLE_total a b) l

theorem toStat_withForm (s : PlayerStat) (f : List FormEntry) : toStat (withForm s f) = s := rfl

theorem map_toStat_map_withForm (l : List PlayerStat) (g : PlayerStat → List FormEntry) :
    (l.map (fun s => withForm s (g s))).map toStat = l := by
  rw [List.map_map]
  exact List.map_id'' (fun _ => rfl) l

theorem sorted_map_withForm (l : List PlayerStat) (g : PlayerStat → List FormEntry)
    (h : List.Sorted (fun a b => rankLE a b = true) l) :
    List.Sorted (fun a b => rankLE (toStat a) (toStat b) = true)
      (l.map (fun s => withForm s (g s))) := by
  rw [List.Sorted, List.pairwise_map]
  exact h

/-- C1: the three ranking queries return lists sorted by points
descending, then win_percentage descending, then name ascending (the
rankLE order), and the route handlers that attach the form list to each
player change neither that order nor any PlayerStat field: projecting
the assembled rankings back to PlayerStat recovers the stats list
exactly, and the assembled rankings are sorted under the same order on
the projected fields. -/
theorem rankings_sorted_and_form_additive (players : List Player) (ms : List MatchRow)
    (seasonId : Nat) (d : String) :
    List.Sorted (fun a b => rankLE a b = true) (getPlayerStatsLifetime players ms) ∧
    List.Sorted (fun a b => rankLE a b = true) (getPlayerStatsBySeason seasonId players ms) ∧
    List.Sorted (fun a b => rankLE a b = true) (getPlayerStatsBySpecificDate d players ms) ∧
    (computeLifetimeRankings players ms).map toStat = getPlayerStatsLifetime players ms ∧
    (computeSeasonRankings seasonId players ms).map toStat
      = getPlayerStatsBySeason seasonId players ms ∧
    (computeDateRankings d players ms).map toStat
      = getPlayerStatsBySpecificDate d players ms ∧
    List.Sorted (fun a b => rankLE (toStat a) (toStat b) = true)
      (computeLifetimeRankings players ms) ∧
    List.Sorted (fun a b => rankLE (toStat a) (toStat b) = true)
      (computeSeasonRankings seasonId players ms) ∧
    List.Sorted (fun a b => rankLE (toStat a) (toStat b) = true)
      (computeDateRankings d players ms) := by
  refine ⟨sorted_mergeSort_rankLE _, sorted_mergeSort_rankLE _, sorted_mergeSort_rankLE _,
    map_toStat_map_withForm _ _, map_toStat_map_withForm _ _, map_toStat_map_withForm _ _,
    ?_, ?_, ?_⟩
  · exact sorted_map_withForm _ _ (sorted_mergeSort_rankLE _)
  · exact sorted_map_withForm _ _ (sorted_mergeSort_rankLE _)
  · exact sorted_map_withForm _ _ (sorted_mergeSort_rankLE _)

end Pickleball

namespace Pickleball

/-- C2: for a decided match (winning_team 1 or 2) and a player occupying
slots of exactly one team, the stats classification (isWin/isLoss CASE
conditions) and the form classification (result CASE) agree with the
spec rule: team 1 and winning_team 1 is a win, team 1 and winning_team 2
a loss, team 2 and winning_team 2 a win, team 2 and winning_team 1 a
loss. -/
theorem outcome_classification (m : MatchRow) (pid : Nat) :
    (onTeam1 m pid = true → onTeam2 m pid = false →
      (m.winning_team = 1 →
        isWin m pid = true ∧ isLoss m pid = false ∧ formResult m pid = "win") ∧
      (m.winning_team = 2 →
        isLoss m pid = true ∧ isWin m pid = false ∧ formResult m pid = "loss")) ∧
    (onTeam2 m pid = true → onTeam1 m pid = false →
      (m.winning_team = 2 →
        isWin m pid = true ∧ isLoss m pid = false ∧ formResult m pid = "win") ∧
      (m.winning_team = 1 →
        isLoss m pid = true ∧ isWin m pid = false ∧ formResult m pid = "loss")) := by
  constructor
  · intro h1 h2
    constructor
    · intro hw
      refine ⟨?_, ?_, ?_⟩ <;> simp [isWin, isLoss, formResult, h1, h2, hw]
    · intro hw
      refine ⟨?_, ?_, ?_⟩ <;> simp [isWin, isLoss, formResult, h1, h2, hw]
  · intro h1 h2
    constructor
    · intro hw
      refine ⟨?_, ?_, ?_⟩ <;> simp [isWin, isLoss, formResult, h1, h2, hw]
    · intro hw
      refine ⟨?_, ?_, ?_⟩ <;> simp [isWin, isLoss, formResult, h1, h2, hw]

/-- Witness for C2 at a concrete match: player 7 on team 1 of a match
won by team 1 is classified as a win by both computations. -/
theorem outcome_classification_witness :
    isWin { id := 1, season_id := 1, play_date := "2024-01-15", match_type := "duo",
            player1_id := 7, player2_id := some 8, player3_id := 9, player4_id := some 10,
            team1_score := 11, team2_score := 5, winning_team := 1, created_at := 1 } 7 = true ∧
    isLoss { id := 1, season_id := 1, play_date := "2024-01-15", match_type := "duo",
             player1_id := 7, player2_id := some 8, player3_id := 9, player4_id := some 10,
             team1_score := 11, team2_score := 5, winning_team := 1, created_at := 1 } 7 = false ∧
    formResult { id := 1, season_id := 1, play_date := "2024-01-15", match_type := "duo",
                 player1_id := 7, player2_id := some 8, player3_id := 9, player4_id := some 10,
                 team1_score := 11, team2_score := 5, winning_team := 1, created_at := 1 } 7
      = "win" :=
  ((outcome_classification
      { id := 1, season_id := 1, play_date := "2024-01-15", match_type := "duo",
        player1_id := 7, player2_id := some 8, player3_id := 9, player4_id := some 10,
        team1_score := 11, team2_score := 5, winning_team := 1, created_at := 1 } 7).1
    (by decide) (by decide)).1 rfl

theorem mem_stats_output {players : List Player} {fil : List MatchRow} {s : PlayerStat}
    (h : s ∈ (players.map (statsFor fil)).mergeSort rankLE) :
    ∃ p ∈ players, s = statsFor fil p := by
  rw [List.mem_mergeSort, List.mem_map] at h
  obtain ⟨p, hp, rfl⟩ := h
  exact ⟨p, hp, rfl⟩

/-- C3: in the output of each of the three stats queries, points equals
wins*4 + losses*1 and money_lost equals losses*20000. -/
theorem points_money_formulas (players : List Player) (ms : List MatchRow)
    (seasonId : Nat) (d : String) :
    (∀ s ∈ getPlayerStatsLifetime players ms,
        s.points = s.wins * 4 + s.losses * 1 ∧ s.money_lost = s.losses * 20000) ∧
    (∀ s ∈ getPlayerStatsBySeason seasonId players ms,
        s.points = s.wins * 4 + s.losses * 1 ∧ s.money_lost = s.losses * 20000) ∧
    (∀ s ∈ getPlayerStatsBySpecificDate d players ms,
        s.points = s.wins * 4 + s.losses * 1 ∧ s.money_lost = s.losses * 20000) := by
  refine ⟨?_, ?_, ?_⟩ <;>
    · intro s hs
      obtain ⟨p, _, rfl⟩ := mem_stats_output hs
      exact ⟨rfl, rfl⟩

/-- Fixture: a decided duo-typed match where player 1 (alone on team 1)
beats player 2 (alone on team 2). -/
def exMatch : MatchRow :=
  { id := 1, season_id := 1, play_date := "2024-01-15", match_type := "duo",
    player1_id := 1, player2_id := none, player3_id := 2, player4_id := none,
    team1_score := 11, team2_score := 5, winning_team := 1, created_at := 1 }

/-- Fixture: roster player 1. -/
def exPlayer : Player := { id := 1, name := "A" }

/-- Witness for C3 on a one-player roster with one decided match. -/
theorem points_money_formulas_witness :
    statsFor [exMatch] exPlayer ∈ getPlayerStatsLifetime [exPlayer] [exMatch] ∧
    ((statsFor [exMatch] exPlayer).points
        = (statsFor [exMatch] exPlayer).wins * 4 + (statsFor [exMatch] exPlayer).losses * 1 ∧
      (statsFor [exMatch] exPlayer).money_lost
        = (statsFor [exMatch] exPlayer).losses * 20000) := by
  have hmem : statsFor [exMatch] exPlayer ∈ getPlayerStatsLifetime [exPlayer] [exMatch] := by
    simp [getPlayerStatsLifetime]
  exact ⟨hmem, (points_money_formulas [exPlayer] [exMatch] 0 "").1 (statsFor [exMatch] exPlayer) hmem⟩

end Pickleball

namespace Pickleball

/-- Specification-side rounding: round a rational half-up to exactly one
decimal place. -/
def roundTo1 (q : ℚ) : ℚ := (⌊q * 10 + 1 / 2⌋ : ℚ) / 10

theorem winPctTenths_le_1000 (w l : Nat) : winPctTenths w l ≤ 1000 := by
  unfold winPctTenths
  split
  · next h =>
    have h2 : 0 < 2 * (w + l) := by omega
    have h3 : 2000 * w + (w + l) < 1001 * (2 * (w + l)) := by omega
    have h4 := (Nat.div_lt_iff_lt_mul h2).mpr h3
    omega
  · omega

theorem winPct_eq_roundTo1 (w l : Nat) (h : 0 < w + l) :
    ((winPctTenths w l : ℚ) / 10) = roundTo1 ((w : ℚ) / ((w : ℚ) + (l : ℚ)) * 100) := by
  have hd : (0 : ℚ) < (w : ℚ) + (l : ℚ) := by
    have : (0 : ℚ) < ((w + l : ℕ) : ℚ) := by exact_mod_cast h
    push_cast at this
    linarith
  unfold roundTo1 winPctTenths
  rw [if_pos h]
  congr 1
  have harg : (w : ℚ) / ((w : ℚ) + (l : ℚ)) * 100 * 10 + 1 / 2
      = ((2000 * w + (w + l) : ℕ) : ℚ) / ((2 * (w + l) : ℕ) : ℚ) := by
    push_cast
    field_simp
    ring
  rw [harg]
  have hx : (0 : ℚ) ≤ ((2000 * w + (w + l) : ℕ) : ℚ) / ((2 * (w + l) : ℕ) : ℚ) := by
    positivity
  rw [← natCast_floor_eq_intCast_floor hx, Nat.floor_div_nat, Nat.floor_natCast]

/-- The property C4 asserts of one output row: win_percentage is 0 when
no decided matches, otherwise wins/(wins+losses)*100 rounded half-up to
one decimal, and always within [0, 100]. -/
def winPctOk (s : PlayerStat) : Prop :=
  (s.wins + s.losses = 0 → s.win_percentage = 0) ∧
  (0 < s.wins + s.losses →
    s.win_percentage = roundTo1 ((s.wins : ℚ) / ((s.wins : ℚ) + (s.losses : ℚ)) * 100)) ∧
  0 ≤ s.win_percentage ∧ s.win_percentage ≤ 100

theorem winPctOk_parts (w l : Nat) :
    (w + l = 0 → ((winPctTenths w l : ℚ) / 10) = 0) ∧
    (0 < w + l →
      ((winPctTenths w l : ℚ) / 10) = roundTo1 ((w : ℚ) / ((w : ℚ) + (l : ℚ)) * 100)) ∧
    0 ≤ ((winPctTenths w l : ℚ) / 10) ∧ ((winPctTenths w l : ℚ) / 10) ≤ 100 := by
  refine ⟨?_, winPct_eq_roundTo1 w l, by positivity, ?_⟩
  · intro h0
    rw [winPctTenths, if_neg (by omega)]
    norm_num
  · have hle := winPctTenths_le_1000 w l
    have hle' : ((winPctTenths w l : ℕ) : ℚ) ≤ 1000 := by exact_mod_cast hle
    rw [div_le_iff₀ (by norm_num : (0 : ℚ) < 10)]
    linarith

theorem winPctOk_statsFor (fil : List MatchRow) (p : Player) : winPctOk (statsFor fil p) :=
  winPctOk_parts _ _

/-- C4: every row of each of the three stats queries satisfies the
win_percentage contract: 0 when wins+losses is 0, otherwise
wins/(wins+losses)*100 rounded half-up to one decimal place, and in all
cases within [0, 100]. -/
theorem win_percentage_rounding (players : List Player) (ms : List MatchRow)
    (seasonId : Nat) (d : String) :
    (∀ s ∈ getPlayerStatsLifetime players ms, winPctOk s) ∧
    (∀ s ∈ getPlayerStatsBySeason seasonId players ms, winPctOk s) ∧
    (∀ s ∈ getPlayerStatsBySpecificDate d players ms, winPctOk s) := by
  refine ⟨?_, ?_, ?_⟩ <;>
    · intro s hs
      obtain ⟨p, _, rfl⟩ := mem_stats_output hs
      exact winPctOk_statsFor _ _

/-- Witness for C4 on a one-player roster with one decided match. -/
theorem win_percentage_rounding_witness :
    statsFor [exMatch] exPlayer ∈ getPlayerStatsLifetime [exPlayer] [exMatch] ∧
    winPctOk (statsFor [exMatch] exPlayer) := by
  have hmem : statsFor [exMatch] exPlayer ∈ getPlayerStatsLifetime [exPlayer] [exMatch] := by
    simp [getPlayerStatsLifetime]
  exact ⟨hmem, (win_percentage_rounding [exPlayer] [exMatch] 0 "").1 _ hmem⟩

end Pickleball

namespace Pickleball

/-- The all-zero stats row the claim C5 expects for a player with no
matches in scope. -/
def zeroScopeStat (p : Player) : PlayerStat :=
  { id := p.id, name := p.name, wins := 0, losses := 0, total_matches := 0,
    points := 0, win_percentage := 0, money_lost := 0 }

theorem statsFor_no_matches (fil : List MatchRow) (p : Player)
    (h : ∀ m ∈ fil, playsIn m p.id = false) :
    statsFor fil p = zeroScopeStat p := by
  have hfil : fil.filter (fun m => playsIn m p.id) = [] := by
    rw [List.filter_eq_nil_iff]
    intro a ha
    simp [h a ha]
  simp only [statsFor, hfil, zeroScopeStat]
  norm_num [winPctTenths]

/-- C5: every roster player yields a row of each of the three ranking
queries carrying their id and name, and a player with no matches in the
requested scope (in particular one whose matches all belong to other
seasons, under a season query) gets the all-zero row: wins, losses,
total_matches, points, win_percentage and money_lost all 0. -/
theorem roster_complete_and_zero_scope (players : List Player) (ms : List MatchRow)
    (seasonId : Nat) (d : String) (p : Player) (hp : p ∈ players) :
    (statsFor ms p).id = p.id ∧ (statsFor ms p).name = p.name ∧
    statsFor ms p ∈ getPlayerStatsLifetime players ms ∧
    statsFor (ms.filter (fun m => m.season_id == seasonId)) p
      ∈ getPlayerStatsBySeason seasonId players ms ∧
    statsFor (ms.filter (fun m => m.play_date == d)) p
      ∈ getPlayerStatsBySpecificDate d players ms ∧
    ((∀ m ∈ ms, playsIn m p.id = false) → statsFor ms p = zeroScopeStat p) ∧
    ((∀ m ∈ ms, m.season_id = seasonId → playsIn m p.id = false) →
      statsFor (ms.filter (fun m => m.season_id == seasonId)) p = zeroScopeStat p) ∧
    ((∀ m ∈ ms, m.play_date = d → playsIn m p.id = false) →
      statsFor (ms.filter (fun m => m.play_date == d)) p = zeroScopeStat p) := by
  refine ⟨rfl, rfl, ?_, ?_, ?_, ?_, ?_, ?_⟩
  · exact List.mem_mergeSort.mpr (List.mem_map_of_mem _ hp)
  · exact List.mem_mergeSort.mpr (List.mem_map_of_mem _ hp)
  · exact List.mem_mergeSort.mpr (List.mem_map_of_mem _ hp)
  · exact statsFor_no_matches ms p
  · intro h
    refine statsFor_no_matches _ p ?_
    intro m hm
    have hm' := List.mem_filter.mp hm
    exact h m hm'.1 (by simpa using hm'.2)
  · intro h
    refine statsFor_no_matches _ p ?_
    intro m hm
    have hm' := List.mem_filter.mp hm
    exact h m hm'.1 (by simpa using hm'.2)

/-- Witness for C5: player 1 plays one lifetime match recorded in season
1, so under a season-2 query their row is all zeros. -/
theorem roster_complete_and_zero_scope_witness :
    (statsFor [exMatch] exPlayer).id = exPlayer.id ∧
    (statsFor [exMatch] exPlayer).name = exPlayer.name ∧
    statsFor [exMatch] exPlayer ∈ getPlayerStatsLifetime [exPlayer] [exMatch] ∧
    statsFor ([exMatch].filter (fun m => m.season_id == 2)) exPlayer
      ∈ getPlayerStatsBySeason 2 [exPlayer] [exMatch] ∧
    statsFor ([exMatch].filter (fun m => m.play_date == "2024-02-02")) exPlayer
      ∈ getPlayerStatsBySpecificDate "2024-02-02" [exPlayer] [exMatch] ∧
    ((∀ m ∈ [exMatch], playsIn m exPlayer.id = false) →
      statsFor [exMatch] exPlayer = zeroScopeStat exPlayer) ∧
    ((∀ m ∈ [exMatch], m.season_id = 2 → playsIn m exPlayer.id = false) →
      statsFor ([exMatch].filter (fun m => m.season_id == 2)) exPlayer
        = zeroScopeStat exPlayer) ∧
    ((∀ m ∈ [exMatch], m.play_date = "2024-02-02" → playsIn m exPlayer.id = false) →
      statsFor ([exMatch].filter (fun m => m.play_date == "2024-02-02")) exPlayer
        = zeroScopeStat exPlayer) :=
  roster_complete_and_zero_scope [exPlayer] [exMatch] 2 "2024-02-02" exPlayer (by decide)

theorem formLE_play_date_ge (a b : MatchRow) (h : formLE a b = true) :
    b.play_date ≤ a.play_date := by
  simp only [formLE, Bool.or_eq_true, Bool.and_eq_true, decide_eq_true_eq, beq_iff_eq] at h
  rcases h with h | ⟨h, _⟩
  · exact le_of_lt h
  · exact le_of_eq h.symm

theorem sorted_take_formLE (l : List MatchRow) (n : Nat) :
    List.Sorted (fun a b => formLE a b = true) ((l.mergeSort formLE).take n) :=
  List.Pairwise.sublist (List.take_sublist n _) (sorted_mergeSort_formLE l)

theorem sorted_form_entries (l : List MatchRow) (n pid : Nat) :
    List.Sorted (fun a b : FormEntry => b.play_date ≤ a.play_date)
      (((l.mergeSort formLE).take n).map (toFormEntry pid)) := by
  rw [List.Sorted, List.pairwise_map]
  exact (sorted_take_formLE l n).imp
    (fun h => formLE_play_date_ge _ _ h)

/-- C6: each form query returns at most the requested limit of entries,
exactly all of them when fewer exist (length is the minimum of the limit
and the number of the player's matches in scope), the underlying match
selection is sorted by play_date descending with ties broken by
created_at descending, the returned entries are its image, and the
returned entries are sorted by play date descending. -/
theorem form_limit_and_order (pid limit seasonId : Nat) (d : String) (ms : List MatchRow) :
    (getPlayerForm pid limit ms).length
        = min limit ((ms.filter (fun m => playsIn m pid)).length) ∧
    getPlayerForm pid limit ms = ((formMatches pid ms).take limit).map (toFormEntry pid) ∧
    List.Sorted (fun a b => formLE a b = true) ((formMatches pid ms).take limit) ∧
    List.Sorted (fun a b : FormEntry => b.play_date ≤ a.play_date)
      (getPlayerForm pid limit ms) ∧
    (getPlayerFormBySeason pid seasonId limit ms).length
        = min limit ((ms.filter (fun m => playsIn m pid && m.season_id == seasonId)).length) ∧
    getPlayerFormBySeason pid seasonId limit ms
        = ((seasonFormMatches pid seasonId ms).take limit).map (toFormEntry pid) ∧
    List.Sorted (fun a b => formLE a b = true) ((seasonFormMatches pid seasonId ms).take limit) ∧
    List.Sorted (fun a b : FormEntry => b.play_date ≤ a.play_date)
      (getPlayerFormBySeason pid seasonId limit ms) ∧
    (getPlayerFormBySpecificDate pid d limit ms).length
        = min limit ((ms.filter (fun m => playsIn m pid && m.play_date == d)).length) ∧
    getPlayerFormBySpecificDate pid d limit ms
        = ((dateFormMatches pid d ms).take limit).map (toFormEntry pid) ∧
    List.Sorted (fun a b => formLE a b = true) ((dateFormMatches pid d ms).take limit) ∧
    List.Sorted (fun a b : FormEntry => b.play_date ≤ a.play_date)
      (getPlayerFormBySpecificDate pid d limit ms) := by
  refine ⟨?_, rfl, sorted_take_formLE _ _, sorted_form_entries _ _ _,
          ?_, rfl, sorted_take_formLE _ _, sorted_form_entries _ _ _,
          ?_, rfl, sorted_take_formLE _ _, sorted_form_entries _ _ _⟩
  · simp [getPlayerForm, formMatches]
  · simp [getPlayerFormBySeason, seasonFormMatches]
  · simp [getPlayerFormBySpecificDate, dateFormMatches]

end Pickleball

namespace Pickleball

/-- Fixture for C7: a stored match whose slots place player 1 on both
teams (slot 1 and slot 3); nothing in the matches table schema rules
this out, and winning_team is 1. -/
def overlapMatch : MatchRow :=
  { id := 1, season_id := 1, play_date := "2024-01-01", match_type := "duo",
    player1_id := 1, player2_id := none, player3_id := 1, player4_id := none,
    team1_score := 11, team2_score := 9, winning_team := 1, created_at := 1 }

/-- Counterexample to C7 as stated: with every stored match decided
(winning_team = 1), the lifetime stats row of player 1 for the match
where they occupy slots on both teams has wins + losses = 2 but
total_matches = 1. -/
theorem wins_losses_total_cex :
    overlapMatch.winning_team = 1 ∧
    statsFor [overlapMatch] exPlayer ∈ getPlayerStatsLifetime [exPlayer] [overlapMatch] ∧
    (statsFor [overlapMatch] exPlayer).wins + (statsFor [overlapMatch] exPlayer).losses
      ≠ (statsFor [overlapMatch] exPlayer).total_matches := by
  refine ⟨rfl, by simp [getPlayerStatsLifetime], by decide⟩

theorem countP_partition {α : Type} (p q : α → Bool) :
    ∀ l : List α, (∀ a ∈ l, (p a = true ∨ q a = true) ∧ ¬(p a = true ∧ q a = true)) →
      l.countP p + l.countP q = l.length
  | [], _ => rfl
  | a :: l, h => by
    have ha := h a (List.mem_cons_self a l)
    have hl := countP_partition p q l (fun b hb => h b (List.mem_cons_of_mem a hb))
    rcases ha with ⟨hor, hnand⟩
    rcases hor with hp | hq
    · have hq2 : q a = false := by
        cases hqa : q a
        · rfl
        · exact absurd ⟨hp, hqa⟩ hnand
      simp [List.countP_cons, hp, hq2]
      omega
    · have hp2 : p a = false := by
        cases hpa : p a
        · rfl
        · exact absurd ⟨hpa, hq⟩ hnand
      simp [List.countP_cons, hq, hp2]
      omega

theorem isWin_isLoss_partition (m : MatchRow) (pid : Nat)
    (hwt : m.winning_team = 1 ∨ m.winning_team = 2)
    (hteams : ¬(onTeam1 m pid = true ∧ onTeam2 m pid = true))
    (hplays : playsIn m pid = true) :
    (isWin m pid = true ∨ isLoss m pid = true) ∧
    ¬(isWin m pid = true ∧ isLoss m pid = true) := by
  have ht : onTeam1 m pid = true ∨ onTeam2 m pid = true := by
    simpa [playsIn] using hplays
  rcases hwt with h | h
  · rcases ht with ht1 | ht2
    · have ht2 : onTeam2 m pid = false := by
        cases hc : onTeam2 m pid
        · rfl
        · exact absurd ⟨ht1, hc⟩ hteams
      constructor
      · left
        simp [isWin, h, ht1]
      · rintro ⟨-, hl⟩
        simp [isLoss, h, ht2] at hl
    · have ht1 : onTeam1 m pid = false := by
        cases hc : onTeam1 m pid
        · rfl
        · exact absurd ⟨hc, ht2⟩ hteams
      constructor
      · right
        simp [isLoss, h, ht2]
      · rintro ⟨hw, -⟩
        simp [isWin, h, ht1] at hw
  · rcases ht with ht1 | ht2
    · have ht2 : onTeam2 m pid = false := by
        cases hc : onTeam2 m pid
        · rfl
        · exact absurd ⟨ht1, hc⟩ hteams
      constructor
      · right
        simp [isLoss, h, ht1]
      · rintro ⟨hw, -⟩
        simp [isWin, h, ht2] at hw
    · have ht1 : onTeam1 m pid = false := by
        cases hc : onTeam1 m pid
        · rfl
        · exact absurd ⟨hc, ht2⟩ hteams
      constructor
      · left
        simp [isWin, h, ht2]
      · rintro ⟨-, hl⟩
        simp [isLoss, h, ht1] at hl

theorem statsFor_wins_add_losses (fil : List MatchRow) (p : Player)
    (h : ∀ m ∈ fil, (m.winning_team = 1 ∨ m.winning_team = 2) ∧
      ∀ q : Nat, ¬(onTeam1 m q = true ∧ onTeam2 m q = true)) :
    (statsFor fil p).wins + (statsFor fil p).losses = (statsFor fil p).total_matches := by
  refine countP_partition _ _ _ ?_
  intro m hm
  have hmem := List.mem_filter.mp hm
  exact isWin_isLoss_partition m p.id (h m hmem.1).1 ((h m hmem.1).2 p.id) hmem.2

/-- C7 amended: wins + losses equals total_matches in every row of each
of the three stats queries, under the precondition that every stored
match has winning_team 1 or 2 AND that no player occupies slots on both
teams of the same match (the latter is forced by the counterexample: a
row placing one player on both teams is counted once in total_matches
but in both wins and losses). -/
theorem wins_add_losses_eq_total (players : List Player) (ms : List MatchRow)
    (seasonId : Nat) (d : String)
    (h : ∀ m ∈ ms, (m.winning_team = 1 ∨ m.winning_team = 2) ∧
      ∀ q : Nat, ¬(onTeam1 m q = true ∧ onTeam2 m q = true)) :
    (∀ s ∈ getPlayerStatsLifetime players ms, s.wins + s.losses = s.total_matches) ∧
    (∀ s ∈ getPlayerStatsBySeason seasonId players ms, s.wins + s.losses = s.total_matches) ∧
    (∀ s ∈ getPlayerStatsBySpecificDate d players ms, s.wins + s.losses = s.total_matches) := by
  refine ⟨?_, ?_, ?_⟩
  · intro s hs
    obtain ⟨p, _, rfl⟩ := mem_stats_output hs
    exact statsFor_wins_add_losses _ _ h
  · intro s hs
    obtain ⟨p, _, rfl⟩ := mem_stats_output hs
    exact statsFor_wins_add_losses _ _ (fun m hm => h m (List.mem_of_mem_filter hm))
  · intro s hs
    obtain ⟨p, _, rfl⟩ := mem_stats_output hs
    exact statsFor_wins_add_losses _ _ (fun m hm => h m (List.mem_of_mem_filter hm))

/-- Witness for the amended C7 on a decided match with disjoint teams. -/
theorem wins_add_losses_eq_total_witness :
    (statsFor [exMatch] exPlayer).wins + (statsFor [exMatch] exPlayer).losses
      = (statsFor [exMatch] exPlayer).total_matches := by
  have hmem : statsFor [exMatch] exPlayer ∈ getPlayerStatsLifetime [exPlayer] [exMatch] := by
    simp [getPlayerStatsLifetime]
  refine (wins_add_losses_eq_total [exPlayer] [exMatch] 0 "" ?_).1 _ hmem
  intro m hm
  rw [List.mem_singleton] at hm
  subst hm
  refine ⟨Or.inl rfl, ?_⟩
  intro q hq
  rcases hq with ⟨h1, h2⟩
  simp [onTeam1, exMatch] at h1
  simp [onTeam2, exMatch] at h2
  omega

end Pickleball

namespace Pickleball

theorem lifetimeKey_ne_seasonKey (seasonId : Nat) : lifetimeKey ≠ seasonKey seasonId := by
  intro h
  have hd : lifetimeKey.data[9]? = (seasonKey seasonId).data[9]? := by rw [h]
  rw [show (seasonKey seasonId).data = "rankings:season:".data ++ (toString seasonId).data
      from rfl] at hd
  rw [List.getElem?_append_left (by decide)] at hd
  exact absurd hd (by decide)

theorem lifetimeKey_ne_dateKey (d : String) : lifetimeKey ≠ dateKey d := by
  intro h
  have hd : lifetimeKey.data[9]? = (dateKey d).data[9]? := by rw [h]
  rw [show (dateKey d).data = "rankings:date:".data ++ d.data from rfl] at hd
  rw [List.getElem?_append_left (by decide)] at hd
  exact absurd hd (by decide)

theorem seasonKey_ne_dateKey (seasonId : Nat) (d : String) : seasonKey seasonId ≠ dateKey d := by
  intro h
  have hd : (seasonKey seasonId).data[9]? = (dateKey d).data[9]? := by rw [h]
  rw [show (seasonKey seasonId).data = "rankings:season:".data ++ (toString seasonId).data
      from rfl] at hd
  rw [show (dateKey d).data = "rankings:date:".data ++ d.data from rfl] at hd
  rw [List.getElem?_append_left (by decide), List.getElem?_append_left (by decide)] at hd
  exact absurd hd (by decide)

/-- C8: on a cache miss each ranking route stores its freshly computed
value under its scope key with its scope TTL: the lifetime route under
rankings:lifetime with 10 minutes, the season route under
rankings:season:(seasonId) with 3 minutes, the date route under
rankings:date:(date) with 15 minutes; and the keys of different scopes
never coincide, whatever the season id or date. -/
theorem cache_keys_and_ttls {σ : Type} (c : RankingsCache σ) (st : σ)
    (players : List Player) (ms : List MatchRow) (seasonId : Nat) (d : String)
    (hl : c.get st lifetimeKey = none)
    (hs : c.get st (seasonKey seasonId) = none)
    (hd : c.get st (dateKey d) = none) :
    (lifetimeRoute c st players ms).setCall
      = some (lifetimeKey, computeLifetimeRankings players ms, 10 * 60 * 1000) ∧
    (seasonRoute c st seasonId players ms).setCall
      = some (seasonKey seasonId, computeSeasonRankings seasonId players ms, 3 * 60 * 1000) ∧
    (dateRoute c st d players ms).setCall
      = some (dateKey d, computeDateRankings d players ms, 15 * 60 * 1000) ∧
    lifetimeKey = "rankings:lifetime" ∧
    seasonKey seasonId = "rankings:season:" ++ toString seasonId ∧
    dateKey d = "rankings:date:" ++ d ∧
    lifetimeKey ≠ seasonKey seasonId ∧
    lifetimeKey ≠ dateKey d ∧
    seasonKey seasonId ≠ dateKey d := by
  refine ⟨?_, ?_, ?_, rfl, rfl, rfl, lifetimeKey_ne_seasonKey seasonId,
    lifetimeKey_ne_dateKey d, seasonKey_ne_dateKey seasonId d⟩
  · simp [lifetimeRoute, hl, lifetimeTTL]
  · simp [seasonRoute, hs, seasonTTL]
  · simp [dateRoute, hd, dateTTL]

/-- Fixture: an empty cache over the unit state whose set always
succeeds without changing the state. -/
def emptyCache : RankingsCache Unit :=
  { get := fun _ _ => none, set := fun st _ _ _ => some st }

/-- Witness for C8 with the empty cache, season 1 and a concrete date. -/
theorem cache_keys_and_ttls_witness :
    (lifetimeRoute emptyCache () [exPlayer] [exMatch]).setCall
      = some (lifetimeKey, computeLifetimeRankings [exPlayer] [exMatch], 10 * 60 * 1000) ∧
    (seasonRoute emptyCache () 1 [exPlayer] [exMatch]).setCall
      = some (seasonKey 1, computeSeasonRankings 1 [exPlayer] [exMatch], 3 * 60 * 1000) ∧
    (dateRoute emptyCache () "2024-01-15" [exPlayer] [exMatch]).setCall
      = some (dateKey "2024-01-15",
          computeDateRankings "2024-01-15" [exPlayer] [exMatch], 15 * 60 * 1000) ∧
    lifetimeKey = "rankings:lifetime" ∧
    seasonKey 1 = "rankings:season:" ++ toString 1 ∧
    dateKey "2024-01-15" = "rankings:date:" ++ "2024-01-15" ∧
    lifetimeKey ≠ seasonKey 1 ∧
    lifetimeKey ≠ dateKey "2024-01-15" ∧
    seasonKey 1 ≠ dateKey "2024-01-15" :=
  cache_keys_and_ttls emptyCache () [exPlayer] [exMatch] 1 "2024-01-15" rfl rfl rfl

/-- C9: on a cache miss each ranking route responds with the freshly
computed rankings whatever the outcome of the cache set call, including
when storing fails; the request is answered (with a miss indicator)
rather than failing. -/
theorem cache_set_failure_still_responds {σ : Type} (c : RankingsCache σ) (st : σ)
    (players : List Player) (ms : List MatchRow) (seasonId : Nat) (d : String)
    (hl : c.get st lifetimeKey = none)
    (hs : c.get st (seasonKey seasonId) = none)
    (hd : c.get st (dateKey d) = none) :
    (lifetimeRoute c st players ms).body = computeLifetimeRankings players ms ∧
    (lifetimeRoute c st players ms).cacheHit = false ∧
    (seasonRoute c st seasonId players ms).body = computeSeasonRankings seasonId players ms ∧
    (seasonRoute c st seasonId players ms).cacheHit = false ∧
    (dateRoute c st d players ms).body = computeDateRankings d players ms ∧
    (dateRoute c st d players ms).cacheHit = false := by
  refine ⟨?_, ?_, ?_, ?_, ?_, ?_⟩ <;>
    simp [lifetimeRoute, seasonRoute, dateRoute, hl, hs, hd]

/-- Fixture: a cache over the unit state whose set always fails. -/
def failingCache : RankingsCache Unit :=
  { get := fun _ _ => none, set := fun _ _ _ _ => none }

/-- Witness for C9 with a cache whose set always fails: the routes still
return the freshly computed rankings. -/
theorem cache_set_failure_still_responds_witness :
    (lifetimeRoute failingCache () [exPlayer] [exMatch]).body
      = computeLifetimeRankings [exPlayer] [exMatch] ∧
    (lifetimeRoute failingCache () [exPlayer] [exMatch]).cacheHit = false ∧
    (seasonRoute failingCache () 1 [exPlayer] [exMatch]).body
      = computeSeasonRankings 1 [exPlayer] [exMatch] ∧
    (seasonRoute failingCache () 1 [exPlayer] [exMatch]).cacheHit = false ∧
    (dateRoute failingCache () "2024-01-15" [exPlayer] [exMatch]).body
      = computeDateRankings "2024-01-15" [exPlayer] [exMatch] ∧
    (dateRoute failingCache () "2024-01-15" [exPlayer] [exMatch]).cacheHit = false :=
  cache_set_failure_still_responds failingCache () [exPlayer] [exMatch] 1 "2024-01-15"
    rfl rfl rfl

end Pickleball
